import Mathlib

/-!
Verification development for the doc_flow document-structure classifier.

This file gives a shallow embedding of the two core components of the
repository — the text normalizer `clean_text` (src/extractor/text_clean.py)
and the line classifier `parse_markdown_to_rows`
(src/extractor/sentence_postprocess.py) — as executable Lean definitions,
and proves or refutes the specification claims about them.

Modelling conventions:
* Python strings are Lean `String`s; the work happens on `List Char`.
* Each Python regular expression is translated into an explicit matching
  function, following the backtracking behaviour of CPython's `re` engine
  on the concrete pattern (greedy quantifiers, leftmost match).
* Calls into the Python standard library (`html.unescape`,
  `unicodedata.normalize`, `str.strip`, `str.splitlines`, ...) are modelled
  by functions that reproduce the documented stdlib behaviour on the
  portion of the character space exercised here; each such model carries a
  doc comment stating its restriction.
* One regex in the source, `NON_LATIN_PREFIX_RE`, does not compile in
  CPython at all: its character class places a hyphen between two literal
  characters in decreasing code-point order, so `re.compile` raises
  `re.error` when the module is imported.  The model below uses the
  evidently intended reading of that class (the five literal separator
  kinds); the defect itself is recorded by the claims touching it.
-/

namespace DocFlow

/-! ## Character predicates (Python semantics) -/

/-- Python whitespace, the common character set of `str.isspace`, `str.strip`
and the regex class backslash-s on `str` patterns (verified to coincide in
CPython 3.11): ASCII 0x09-0x0D, 0x1C-0x1F, space, NEL, NBSP, Ogham space
mark, the U+2000 block spaces, line/paragraph separator, narrow NBSP,
medium mathematical space and ideographic space. -/
def pyIsSpace (c : Char) : Bool :=
  decide ((0x09 ≤ c.toNat ∧ c.toNat ≤ 0x0D) ∨ (0x1C ≤ c.toNat ∧ c.toNat ≤ 0x1F) ∨
    c = ' ' ∨ c.toNat = 0x85 ∨ c.toNat = 0xA0 ∨ c.toNat = 0x1680 ∨
    (0x2000 ≤ c.toNat ∧ c.toNat ≤ 0x200A) ∨
    c.toNat = 0x2028 ∨ c.toNat = 0x2029 ∨ c.toNat = 0x202F ∨
    c.toNat = 0x205F ∨ c.toNat = 0x3000)

def isAsciiDigit (c : Char) : Bool := decide ('0' ≤ c ∧ c ≤ '9')

def isAsciiUpper (c : Char) : Bool := decide ('A' ≤ c ∧ c ≤ 'Z')

def isAsciiLower (c : Char) : Bool := decide ('a' ≤ c ∧ c ≤ 'z')

def isAsciiLetter (c : Char) : Bool := isAsciiUpper c || isAsciiLower c

/-- Model of the per-character lowercasing used by Python's `str.lower` and
by `re.IGNORECASE` matching, restricted to ASCII (the only case-carrying
characters appearing in this development). -/
def pyToLower (c : Char) : Char :=
  if isAsciiUpper c then Char.ofNat (c.toNat + 32) else c

/-- Model of Python `str.isalpha` per character, restricted to ASCII letters
(the letters appearing in the lines this development evaluates). -/
def pyIsAlpha (c : Char) : Bool := isAsciiLetter c

/-- Model of Python `str.isupper` per character, restricted to ASCII. -/
def pyIsUpper (c : Char) : Bool := isAsciiUpper c

/-- Word character for the regex word-boundary in `_REFERENCES`
(ASCII restriction of the Unicode word-character class). -/
def isWordChar (c : Char) : Bool := isAsciiLetter c || isAsciiDigit c || c == '_'

/-! ## Python string helpers -/

/-- Python `str.strip()` on a character list (`List.rdropWhile` drops the
matching suffix). -/
def pyStripL (l : List Char) : List Char :=
  (l.dropWhile pyIsSpace).rdropWhile pyIsSpace

/-- Python `str.strip()`. -/
def pyStrip (s : String) : String := ⟨pyStripL s.data⟩

/-- Python `str.rstrip()`. -/
def pyRstrip (s : String) : String := ⟨s.data.rdropWhile pyIsSpace⟩

/-- Line-break characters recognised by Python `str.splitlines`
(note: 0x1C-0x1E break lines, 0x1F does not). -/
def isLineBreak (c : Char) : Bool :=
  decide (c = '\n' ∨ c = '\r' ∨ c.toNat = 0x0B ∨ c.toNat = 0x0C ∨
    c.toNat = 0x1C ∨ c.toNat = 0x1D ∨ c.toNat = 0x1E ∨
    c.toNat = 0x85 ∨ c.toNat = 0x2028 ∨ c.toNat = 0x2029)

/-- Core of Python `str.splitlines`: a CR-LF pair counts as one break and a
trailing break does not open an empty final line. -/
def splitlinesAux : List Char → List Char → List (List Char)
  | [], acc => if acc.isEmpty then [] else [acc.reverse]
  | '\r' :: '\n' :: rest, acc => acc.reverse :: splitlinesAux rest []
  | c :: rest, acc =>
    if isLineBreak c then acc.reverse :: splitlinesAux rest []
    else splitlinesAux rest (c :: acc)

/-- Python `str.splitlines`. -/
def pySplitlines (s : String) : List String :=
  (splitlinesAux s.data []).map (fun l => ⟨l⟩)

/-- Number of whitespace-separated fields, as counted by Python
`len(s.split())`. -/
def countFields (l : List Char) : Nat :=
  (l.foldl
    (fun (acc : Nat × Bool) c =>
      if pyIsSpace c then (acc.1, false)
      else if acc.2 then acc else (acc.1 + 1, true))
    (0, false)).1

/-- Remainder produced by Python `s.split(None, 1)[1]`: skip leading
whitespace, skip the first field, skip the separating whitespace.  (The
source indexes `[1]` unconditionally; at its single call site the matched
numeric-outline pattern guarantees a second field exists, so the model
returns the empty remainder instead of an exception when it does not.) -/
def splitNone1Rest (l : List Char) : List Char :=
  (((l.dropWhile pyIsSpace).dropWhile (fun c => !pyIsSpace c)).dropWhile pyIsSpace)

/-! ## `html.unescape` model

Modelled from the Python stdlib `html.unescape` (the first stage of
`clean_text`): numeric character references in decimal and hexadecimal
form, and named references drawn from a finite table, scanned left to
right exactly once; an ampersand that starts no known reference is kept
verbatim together with the scanned token.  The full html5 named-reference
table is cut down to the entities relevant to this development. -/

def namedRefs : List (List Char × List Char) :=
  [("amp;".data, "&".data), ("amp".data, "&".data),
   ("AMP;".data, "&".data), ("AMP".data, "&".data),
   ("lt;".data, "<".data), ("lt".data, "<".data),
   ("gt;".data, ">".data), ("gt".data, ">".data),
   ("quot;".data, "\"".data), ("quot".data, "\"".data),
   ("nbsp;".data, " ".data), ("nbsp".data, " ".data),
   ("Tab;".data, "\t".data), ("NewLine;".data, "\n".data)]

/-- Value of one hexadecimal digit character (both cases), `none` otherwise. -/
def hexVal (c : Char) : Option Nat :=
  match c.toNat with
  | n =>
    if h09 : 48 ≤ n ∧ n ≤ 57 then some (n - 48)
    else if haf : 97 ≤ n ∧ n ≤ 102 then some (n - 87)
    else if hAF : 65 ≤ n ∧ n ≤ 70 then some (n - 55)
    else none

def isHexDigit (c : Char) : Bool := (hexVal c).isSome

/-- Turn a numeric reference value into its character, following
`html._replace_charref`: surrogates and out-of-range values become
U+FFFD.  (The Windows-1252 remapping table for 0x80-0x9F is not modelled;
no input here uses those references.) -/
def charrefChar (n : Nat) : List Char :=
  if 0xD800 ≤ n ∧ n ≤ 0xDFFF then ['�']
  else if n < 0x110000 then [Char.ofNat n]
  else ['�']

/-- Numeric value of a decimal digit string, most significant first. -/
def digitsToNat (ds : List Char) : Nat :=
  ds.foldl (fun acc c => 10 * acc + (c.toNat - 48)) 0

/-- Numeric value of a hexadecimal digit string, most significant first. -/
def hexDigitsToNat (ds : List Char) : Nat :=
  ds.foldl (fun acc c => 16 * acc + ((hexVal c).getD 0)) 0

/-- Characters excluded from a named-reference token by the stdlib charref
regex (tab, newline, form feed, space, `<`, `&`, `#`, `;`). -/
def isNamedRefChar (c : Char) : Bool :=
  !(c == '\t' || c == '\n' || c == '\x0C' || c == ' ' || c == '<' ||
    c == '&' || c == '#' || c == ';')

/-- Longest-known-prefix lookup used for a named token without a full table
hit, mirroring the loop in `html._replace_charref` (prefix length counts
down to 2). -/
def prefixLookup : Nat → List Char → Option (List Char × Nat)
  | 0, _ => none
  | 1, _ => none
  | n + 2, tok =>
    let pre := tok.take (n + 2)
    match namedRefs.find? (fun e => e.1 == pre) with
    | some e => some (e.2, n + 2)
    | none => prefixLookup (n + 1) tok

/-- Try to read one character reference right after an ampersand; returns
the replacement text and the remaining input. -/
def tryCharref (l : List Char) : Option (List Char × List Char) :=
  match l with
  | '#' :: rest =>
    match rest with
    | x :: rest2 =>
      if x == 'x' || x == 'X' then
        let ds := rest2.takeWhile isHexDigit
        if ds.isEmpty then none
        else
          let rest3 := rest2.drop ds.length
          let rest4 := if rest3.head? == some ';' then rest3.drop 1 else rest3
          some (charrefChar (hexDigitsToNat ds), rest4)
      else
        let ds := rest.takeWhile isAsciiDigit
        if ds.isEmpty then none
        else
          let rest3 := rest.drop ds.length
          let rest4 := if rest3.head? == some ';' then rest3.drop 1 else rest3
          some (charrefChar (digitsToNat ds), rest4)
    | [] => none
  | _ =>
    let run := (l.takeWhile isNamedRefChar).take 32
    if run.isEmpty then none
    else
      let hasSemi := (l.drop run.length).head? == some ';'
      let tok := if hasSemi then run ++ [';'] else run
      let rest := l.drop tok.length
      match namedRefs.find? (fun e => e.1 == tok) with
      | some e => some (e.2, rest)
      | none =>
        match prefixLookup (tok.length - 1) tok with
        | some (repl, used) => some (repl ++ tok.drop used, rest)
        | none => some ('&' :: tok, rest)

/-- Fuel-indexed scanner for `html.unescape`; the wrapper supplies fuel
equal to the input length, which always suffices. -/
def unescapeAux : Nat → List Char → List Char
  | 0, l => l
  | _ + 1, [] => []
  | fuel + 1, '&' :: rest =>
    match tryCharref rest with
    | some (repl, rest') => repl ++ unescapeAux fuel rest'
    | none => '&' :: unescapeAux fuel rest
  | fuel + 1, c :: rest => c :: unescapeAux fuel rest

/-- Model of Python `html.unescape` (see `namedRefs` for the table cut). -/
def htmlUnescapeL (l : List Char) : List Char :=
  if l.contains '&' then unescapeAux l.length l else l

/-! ## `unicodedata.normalize("NFKC", ...)` model -/

/-- Modelled from the stdlib call `unicodedata.normalize("NFKC", s)`,
restricted to a code-point-wise mapping: the compatibility space
characters (NBSP, the U+2000 block, narrow NBSP, medium mathematical
space, ideographic space) fold to an ordinary space, and every other code
point is kept.  This is exact for the characters this development feeds
through `clean_text` (ASCII, precomposed Hangul syllables, and the
mojibake bullet bytes), all of which NFKC fixes. -/
def nfkcChar (c : Char) : Char :=
  if c.toNat = 0xA0 ∨ (0x2000 ≤ c.toNat ∧ c.toNat ≤ 0x200A) ∨
     c.toNat = 0x202F ∨ c.toNat = 0x205F ∨ c.toNat = 0x3000 then ' '
  else c

/-- `CTRL_RE.sub(" ", s)`: C0 control characters and DEL become spaces. -/
def ctrlToSpace (c : Char) : Char :=
  if c.toNat ≤ 0x1F ∨ c.toNat = 0x7F then ' ' else c

/-- `NBSP_RE.sub(" ", s)`. -/
def nbspToSpace (c : Char) : Char :=
  if c.toNat = 0xA0 then ' ' else c

/-! ## Pipe stripping, space collapsing, duplicate collapse, bilingual prefix -/

/-- `LEADING_PIPE_RE.sub("", s)` for the anchored pattern
caret backslash-s* pipe backslash-s*: when the first non-whitespace
character is a pipe, that pipe and the whitespace around it go away;
otherwise the string is unchanged. -/
def stripLeadingPipe (l : List Char) : List Char :=
  let t := l.dropWhile pyIsSpace
  match t with
  | '|' :: rest => rest.dropWhile pyIsSpace
  | _ => l

/-- `TRAILING_PIPE_RE.sub("", s)` for the pattern
backslash-s* pipe backslash-s* dollar: the leftmost match always centres
the last pipe of the string, so when everything after the last pipe is
whitespace, that pipe and the whitespace around it go away. -/
def stripTrailingPipe (l : List Char) : List Char :=
  let t := l.rdropWhile pyIsSpace
  match t.reverse with
  | '|' :: restRev => restRev.reverse.rdropWhile pyIsSpace
  | _ => l

/-- `MULTISPACE_RE.sub(" ", s)`: each maximal run of two or more spaces or
tabs becomes a single space (fuel-indexed; the wrapper passes the length). -/
def collapseAux : Nat → List Char → List Char
  | 0, l => l
  | _ + 1, [] => []
  | fuel + 1, c :: rest =>
    if (c == ' ' || c == '\t') &&
       (match rest.head? with | some d => d == ' ' || d == '\t' | none => false) then
      ' ' :: collapseAux fuel (rest.dropWhile (fun d => d == ' ' || d == '\t'))
    else c :: collapseAux fuel rest

def collapseMultispace (l : List Char) : List Char := collapseAux l.length l

/-- Case-insensitive character-list equality, as used by a backreference
under `re.IGNORECASE`. -/
def ciEq (a b : List Char) : Bool := a.map pyToLower == b.map pyToLower

/-- Does `DUP_EN_RE` match with first group `take k`?  The pattern is
caret (.+?) backslash-s+ backreference dollar under IGNORECASE: the group
is a nonempty newline-free prefix, then at least one whitespace character,
then the case-insensitive repetition of the group to the end. -/
def dupMatchAt (l : List Char) (k : Nat) : Bool :=
  let n := l.length
  decide (1 ≤ k) && decide (2 * k + 1 ≤ n) && !(l.take k).contains '\n' &&
  ((l.drop k).take (n - 2 * k)).all pyIsSpace &&
  ciEq (l.take k) (l.drop (n - k))

/-- `DUP_EN_RE` collapse: the lazy group takes the shortest matching
prefix, and the whole string is replaced by that group. -/
def dupCollapse (l : List Char) : List Char :=
  match (List.range l.length).find? (fun k => dupMatchAt l (k + 1)) with
  | some k => l.take (k + 1)
  | none => l

/-- Non-ASCII, the class complement-of-0x00-0x7F in `NON_LATIN_PREFIX_RE`. -/
def isNonAscii (c : Char) : Bool := decide (0x80 ≤ c.toNat)

/-- Separator class of `NON_LATIN_PREFIX_RE` in its evidently intended
literal reading (whitespace, colon, pipe, hyphen, slash).  As written in
the source the class contains the reversed range pipe-to-slash and does
not compile; see the claims about this defect. -/
def isSepChar (c : Char) : Bool :=
  pyIsSpace c || c == ':' || c == '|' || c == '-' || c == '/'

/-- Can the `latin` group start here: an ASCII letter followed by at least
one more character, none of them newlines (the dot does not match a
newline), running to the end of the string. -/
def latinRestOk (r : List Char) : Bool :=
  match r with
  | c :: _ :: _ => isAsciiLetter c && !r.contains '\n'
  | _ => false

/-- Inner backtracking loop of the `NON_LATIN_PREFIX_RE` match: with the
non-ASCII run fixed at `i`, try separator runs of length `j`, longest
first. -/
def tryJdown (l : List Char) (i : Nat) : Nat → Option (List Char)
  | 0 => none
  | j + 1 =>
    let rest := l.drop (i + j + 1)
    if ((l.drop i).take (j + 1)).all isSepChar && latinRestOk rest then some rest
    else tryJdown l i j

/-- Outer backtracking loop: try non-ASCII prefix runs of length `i`,
longest first, stopping below two. -/
def tryIdown (l : List Char) : Nat → Option (List Char)
  | 0 => none
  | 1 => none
  | i + 2 =>
    let sepRun := ((l.drop (i + 2)).takeWhile isSepChar).length
    match tryJdown l (i + 2) sepRun with
    | some r => some r
    | none => tryIdown l (i + 1)

/-- The `latin` group of `NON_LATIN_PREFIX_RE` when the regex matches:
at least two leading non-ASCII characters, at least one separator, then a
Latin-letter-led remainder to the end of the string. -/
def bilingualLatin (l : List Char) : Option (List Char) :=
  tryIdown l (l.takeWhile isNonAscii).length

def keywordTokens : List (List Char) :=
  ["message".data, "report".data, "sustainability".data, "ceo".data,
   "target".data, "governance".data]

/-- Substring containment, Python's `tok in s`. -/
def containsSub (needle hay : List Char) : Bool :=
  (List.range (hay.length + 1)).any (fun i => needle.isPrefixOf (hay.drop i))

/-- `_strip_bilingual_prefix`: keep the Latin remainder when it carries one
of the English keywords, otherwise keep the original string. -/
def stripBilingualPrefix (l : List Char) : List Char :=
  match bilingualLatin l with
  | none => l
  | some latinRaw =>
    let latin := pyStripL latinRaw
    if keywordTokens.any (fun tok => containsSub tok (latin.map pyToLower)) then latin
    else l

/-! ## `clean_text` -/

/-- `clean_text` from src/extractor/text_clean.py: HTML-entity decode, NFKC
fold, control and NBSP characters to spaces, single leading/trailing pipe
removal, trim and multi-space collapse, bilingual-prefix reduction,
duplicate-phrase collapse, final trim. -/
def clean_text (s : String) : String :=
  let l := htmlUnescapeL s.data
  let l := l.map nfkcChar
  let l := l.map ctrlToSpace
  let l := l.map nbspToSpace
  let l := stripLeadingPipe l
  let l := stripTrailingPipe l
  let l := pyStripL l
  let l := collapseMultispace l
  let l := stripBilingualPrefix l
  let l := dupCollapse l
  ⟨pyStripL l⟩

/-! ## Regex matchers of sentence_postprocess.py -/

/-- Shared model of the regex tail fragment "one or more whitespace then a
group of one or more dot-matched characters to the end" on a newline-free
line: normally the group is the remainder after the whitespace run, but
when the remainder is whitespace only, backtracking leaves the last
character to the group. -/
def matchWsPlusRest (r : List Char) : Option (List Char) :=
  match r with
  | [] => none
  | c :: rs =>
    if pyIsSpace c then
      let t := (c :: rs).dropWhile pyIsSpace
      if t.isEmpty then
        if rs.isEmpty then none
        else some [(c :: rs).getLast (List.cons_ne_nil c rs)]
      else some t
    else none

/-- `_HEADING_RE`: one to six hashes, whitespace, captured heading text.
Seven or more leading hashes never match (the character after any shorter
hash prefix is another hash, not whitespace). -/
def headingMatch (l : List Char) : Option (Nat × List Char) :=
  let k := (l.takeWhile (fun c => c == '#')).length
  if 1 ≤ k ∧ k ≤ 6 then (matchWsPlusRest (l.drop k)).map (fun t => (k, t))
  else none

/-- `_TABLE_RE`: after stripping surrounding whitespace the line starts and
ends with a pipe with at least one character between them. -/
def tableMatch (l : List Char) : Bool :=
  let t := pyStripL l
  match t with
  | c :: rest => c == '|' && decide (2 ≤ rest.length) && rest.getLast? == some '|'
  | [] => false

/-- Marker class of `_BULLET_RE` as the source bytes give it: the bullet
sign was double-encoded in the file, so the class holds the three mojibake
characters rather than the bullet sign itself. -/
def bulletMarkerChars : List Char := ['-', '*', 'â', '€', '¢']

/-- `_BULLET_RE`: optional leading whitespace, a marker (single class
character, or an ASCII-digit run followed by a dot), whitespace, content. -/
def bulletMatch (l : List Char) : Bool :=
  let t := l.dropWhile pyIsSpace
  match t with
  | c :: rest =>
    if bulletMarkerChars.contains c then (matchWsPlusRest rest).isSome
    else
      let ds := t.takeWhile isAsciiDigit
      if ds.isEmpty then false
      else
        match t.drop ds.length with
        | '.' :: rest2 => (matchWsPlusRest rest2).isSome
        | _ => false
  | [] => false

/-- `_is_toc_or_reference`: the stripped line ends with a contents/index
phrase, or starts with a references/bibliography phrase followed by a word
boundary (both case-insensitive). -/
def isTocOrReference (l : List Char) : Bool :=
  let t := pyStripL l
  if t.isEmpty then false
  else
    let low := t.map pyToLower
    (["table of contents".data, "contents".data, "index".data].any
      (fun tok => tok.isSuffixOf low)) ||
    (["references".data, "bibliography".data, "works cited".data].any
      (fun tok => tok.isPrefixOf low &&
        (match low.drop tok.length with
         | [] => true
         | d :: _ => !isWordChar d)))

/-- `_SENT_SPLIT` split: break at each maximal whitespace run that is
preceded by sentence punctuation and followed by an ASCII uppercase letter
or digit; the whitespace is dropped (fuel-indexed scanner). -/
def sentSplitAux : Nat → List Char → List Char → List (List Char)
  | 0, l, acc => [acc.reverse ++ l]
  | _ + 1, [], acc => [acc.reverse]
  | fuel + 1, c :: rest, acc =>
    if (c == '.' || c == '!' || c == '?') &&
       (match rest.head? with | some d => pyIsSpace d | none => false) &&
       (match rest.dropWhile pyIsSpace with
        | d :: _ => isAsciiUpper d || isAsciiDigit d
        | [] => false) then
      (c :: acc).reverse :: sentSplitAux fuel (rest.dropWhile pyIsSpace) []
    else sentSplitAux fuel rest (c :: acc)

def sentSplit (l : List Char) : List (List Char) := sentSplitAux l.length l []

/-! ## Heuristic heading detectors -/

/-- Greedy parse of the numeric-outline group: up to four repetitions of a
dot followed by a digit run (greediness is exact here: whenever the greedy
parse fails, every shorter parse leaves a non-whitespace character where
the pattern requires whitespace). -/
def numGroups : Nat → List Char → (List Char × List Char)
  | 0, r => ([], r)
  | n + 1, r =>
    match r with
    | '.' :: rest =>
      let ds := rest.takeWhile isAsciiDigit
      if ds.isEmpty then ([], r)
      else
        let (g, r') := numGroups n (rest.drop ds.length)
        ('.' :: (ds ++ g), r')
    | _ => ([], r)

/-- `_NUM_HEADING`: optional whitespace, a digit run with up to four
dotted extensions, whitespace, then a non-whitespace character. -/
def numGroup (l : List Char) : Option (List Char) :=
  let t := l.dropWhile pyIsSpace
  let d0 := t.takeWhile isAsciiDigit
  if d0.isEmpty then none
  else
    let (grp, rest) := numGroups 4 (t.drop d0.length)
    let ws := rest.takeWhile pyIsSpace
    if !ws.isEmpty && !(rest.drop ws.length).isEmpty then some (d0 ++ grp)
    else none

def romanChars : List Char := ['i', 'v', 'x', 'l', 'c', 'd', 'm']

/-- `_ROMAN_HEADING` (case-insensitive): a roman-numeral letter run, a dot,
whitespace, then a non-whitespace character. -/
def romanMatch (l : List Char) : Bool :=
  let t := l.dropWhile pyIsSpace
  let r := t.takeWhile (fun c => romanChars.contains (pyToLower c))
  if r.isEmpty then false
  else
    match t.drop r.length with
    | '.' :: rest =>
      let ws := rest.takeWhile pyIsSpace
      !ws.isEmpty && !(rest.drop ws.length).isEmpty
    | _ => false

/-- `_ALPHA_HEADING`: a single ASCII capital, a dot, whitespace, then a
non-whitespace character. -/
def alphaMatch (l : List Char) : Bool :=
  let t := l.dropWhile pyIsSpace
  match t with
  | c :: '.' :: rest =>
    isAsciiUpper c &&
      (let ws := rest.takeWhile pyIsSpace
       !ws.isEmpty && !(rest.drop ws.length).isEmpty)
  | _ => false

/-- `_infer_level_from_numbering`. -/
def inferLevelFromNumbering (l : List Char) : Option Nat :=
  match numGroup l with
  | some g => some (min 6 (g.count '.' + 1))
  | none =>
    if romanMatch l then some 1
    else if alphaMatch l then some 2
    else none

/-- `_caps_ratio(s) >= 0.6`, stated over the rationals: with a letter
present, five times the capital count at least three times the letter
count.  This agrees with the source's double-precision comparison for
every line shorter than about 10^15 characters. -/
def capsRatioGE (l : List Char) : Bool :=
  let letters := l.filter pyIsAlpha
  let caps := letters.filter pyIsUpper
  !letters.isEmpty && decide (3 * letters.length ≤ 5 * caps.length)

/-- `_maybe_heading_from_heuristics`: a short line with no terminal
sentence punctuation and a capital-heavy letter population is promoted to
a heading one level below the last one, clamped to 1..3. -/
def maybeHeadingFromHeuristics (l : List Char) (lastLevel : Nat) : Option Nat :=
  let text := pyStripL l
  if text.isEmpty then none
  else if decide (countFields text ≤ 12) &&
      (match text.getLast? with
       | some c => !(c == '.' || c == '!' || c == '?')
       | none => true) &&
      capsRatioGE text then
    some (min (max 1 (lastLevel + 1)) 3)
  else none

/-! ## Rows and the classifier -/

/-- The row record emitted by `_emit_row`. -/
structure Row where
  source_file : String
  line_no : Nat
  page_no : Int
  section_type : String
  heading_level : Nat
  is_table : Nat
  h1 : String
  h2 : String
  h3 : String
  section_path : String
  current_section : String
  text : String
deriving Repr, DecidableEq

/-- `_emit_row`.  The four heading-stack parameters default to the empty
string in the source and no caller overrides them; callers here pass the
empty strings explicitly.  The source's `heading_level or 0` maps 0 to 0
and is the identity on naturals. -/
def emitRow (source_file : String) (line_no : Nat) (text : String)
    (section_type : String) (heading_level : Nat) (is_table : Nat)
    (current_section : String) (page_no : Int)
    (h1 h2 h3 section_path : String) : Row :=
  { source_file := source_file, line_no := line_no, page_no := page_no,
    section_type := section_type, heading_level := heading_level,
    is_table := is_table, h1 := h1, h2 := h2, h3 := h3,
    section_path := section_path, current_section := current_section,
    text := pyStrip text }

/-- The running state of `parse_markdown_to_rows`. -/
structure PState where
  current_section : String
  last_heading_level : Nat
deriving Repr, DecidableEq

/-- Rows of the plain-text fall-through branch: sentence fragments of the
stripped line, each normalized, empties dropped. -/
def textRows (sf : String) (pg : Int) (st : PState) (i : Nat)
    (line : String) : List Row :=
  (sentSplit (pyStrip line).data).filterMap (fun s =>
    if s.isEmpty then none
    else
      let c := clean_text ⟨s⟩
      if c = "" then none
      else some (emitRow sf i c "text" 0 0 st.current_section pg "" "" "" ""))

/-- The raw text of the numeric-heuristic heading: the remainder after the
first field when the line contains a plain space, the whole line otherwise
(`line.split(None, 1)[1] if " " in line else line`). -/
def numHeadingTxtRaw (line : String) : String :=
  if line.data.contains ' ' then ⟨splitNone1Rest line.data⟩ else line

/-- One loop iteration of `parse_markdown_to_rows`: classify the line with
index `i`, returning the updated state and the rows it yields.  (The
source's local variables are inlined; each normalized text is written out
at every use.) -/
def processLine (sf : String) (pg : Int) (uh : Bool) (st : PState)
    (i : Nat) (raw : String) : PState × List Row :=
  if pyRstrip raw = "" then (st, [])
  else if isTocOrReference (pyRstrip raw).data then (st, [])
  else
    match headingMatch (pyRstrip raw).data with
    | some kt =>
      if clean_text (pyStrip ⟨kt.2⟩) = "" then (st, [])
      else (⟨clean_text (pyStrip ⟨kt.2⟩), kt.1⟩,
        [emitRow sf i (clean_text (pyStrip ⟨kt.2⟩)) "heading" kt.1 0
          (clean_text (pyStrip ⟨kt.2⟩)) pg "" "" "" ""])
    | none =>
      if tableMatch (pyRstrip raw).data then
        if clean_text (pyRstrip raw) = "" then (st, [])
        else (st, [emitRow sf i (clean_text (pyRstrip raw)) "table" 0 1
          st.current_section pg "" "" "" ""])
      else if bulletMatch (pyRstrip raw).data then
        if clean_text (pyStrip (pyRstrip raw)) = "" then (st, [])
        else (st, [emitRow sf i (clean_text (pyStrip (pyRstrip raw))) "bullet" 0 0
          st.current_section pg "" "" "" ""])
      else if uh then
        match inferLevelFromNumbering (pyRstrip raw).data with
        | some lvl =>
          if clean_text (numHeadingTxtRaw (pyRstrip raw)) = "" then (st, [])
          else (⟨clean_text (numHeadingTxtRaw (pyRstrip raw)), lvl⟩,
            [emitRow sf i (clean_text (numHeadingTxtRaw (pyRstrip raw))) "heading" lvl 0
              (clean_text (numHeadingTxtRaw (pyRstrip raw))) pg "" "" "" ""])
        | none =>
          match maybeHeadingFromHeuristics (pyRstrip raw).data st.last_heading_level with
          | some lvl2 =>
            if clean_text (pyStrip (pyRstrip raw)) = "" then
              ({ st with current_section := clean_text (pyStrip (pyRstrip raw)) }, [])
            else (⟨clean_text (pyStrip (pyRstrip raw)), lvl2⟩,
              [emitRow sf i (clean_text (pyStrip (pyRstrip raw))) "heading" lvl2 0
                (clean_text (pyStrip (pyRstrip raw))) pg "" "" "" ""])
          | none => (st, textRows sf pg st i (pyRstrip raw))
      else (st, textRows sf pg st i (pyRstrip raw))

/-- The classifier loop over the numbered lines. -/
def parseLines (sf : String) (pg : Int) (uh : Bool) :
    PState → Nat → List String → List Row
  | _, _, [] => []
  | st, i, l :: ls =>
    let step := processLine sf pg uh st i l
    step.2 ++ parseLines sf pg uh step.1 (i + 1) ls

/-- `parse_markdown_to_rows` from src/extractor/sentence_postprocess.py:
split the text into lines and classify them left to right, starting from
an empty section cursor and heading level 0.  (The Python generator is
modelled as the list of all rows it yields.) -/
def parse_markdown_to_rows (md_text : String) (source_file : String)
    (page_no : Int) (use_heuristics : Bool) : List Row :=
  parseLines source_file page_no use_heuristics ⟨"", 0⟩ 1 (pySplitlines md_text)

/-! ## Library lemmas: stripping is idempotent -/

theorem dropWhile_eq_self_of_prefix (p : Char → Bool) {m n : List Char}
    (hpre : n <+: m) (hm : m.dropWhile p = m) : n.dropWhile p = n := by
  rw [List.dropWhile_eq_self_iff] at hm ⊢
  intro hl
  have hlm : 0 < m.length := lt_of_lt_of_le hl hpre.length_le
  obtain ⟨t, rfl⟩ := hpre
  have hget : (n ++ t).get ⟨0, hlm⟩ = n.get ⟨0, hl⟩ := by
    simp [List.getElem_append, hl]
  intro hp
  exact hm hlm (hget ▸ hp)

theorem pyStripL_idem (l : List Char) : pyStripL (pyStripL l) = pyStripL l := by
  unfold pyStripL
  have h1 : ((l.dropWhile pyIsSpace).rdropWhile pyIsSpace).dropWhile pyIsSpace =
      (l.dropWhile pyIsSpace).rdropWhile pyIsSpace :=
    dropWhile_eq_self_of_prefix pyIsSpace (List.rdropWhile_prefix pyIsSpace _)
      (List.dropWhile_idempotent pyIsSpace l)
  rw [h1, List.rdropWhile_idempotent]

theorem pyStrip_pyStrip (s : String) : pyStrip (pyStrip s) = pyStrip s := by
  simp only [pyStrip, pyStripL_idem]

/-- The output of `clean_text` is already stripped, so the final strip that
`_emit_row` performs leaves it unchanged. -/
theorem pyStrip_clean_text (s : String) : pyStrip (clean_text s) = clean_text s := by
  simp only [clean_text, pyStrip, pyStripL_idem]

/-! ## Structural facts about one classifier step -/

/-- Every row of the plain-text branch: heading-stack fields empty, the
line position and page of the call, the forward-filled cursor, type
`text`, and a non-empty normalized text. -/
theorem textRows_mem (sf : String) (pg : Int) (st : PState) (i : Nat)
    (line : String) :
    ∀ r ∈ textRows sf pg st i line,
      r.h1 = "" ∧ r.h2 = "" ∧ r.h3 = "" ∧ r.section_path = "" ∧
      r.source_file = sf ∧ r.page_no = pg ∧ r.line_no = i ∧
      r.current_section = st.current_section ∧ r.section_type = "text" ∧
      r.text ≠ "" := by
  intro r hr
  simp only [textRows, List.mem_filterMap] at hr
  obtain ⟨s, _, hf⟩ := hr
  by_cases h1 : s.isEmpty
  · simp [h1] at hf
  · simp only [h1, if_false, Bool.false_eq_true] at hf
    by_cases h2 : clean_text ⟨s⟩ = ""
    · simp [h2] at hf
    · simp only [h2, if_false] at hf
      cases hf
      simp [emitRow, pyStrip_clean_text, h2]

/-- Every row of one classifier step: heading-stack fields empty, the line
position and page of the call, and a non-empty text. -/
theorem processLine_mem (sf : String) (pg : Int) (uh : Bool) (st : PState)
    (i : Nat) (raw : String) :
    ∀ r ∈ (processLine sf pg uh st i raw).2,
      r.h1 = "" ∧ r.h2 = "" ∧ r.h3 = "" ∧ r.section_path = "" ∧
      r.source_file = sf ∧ r.page_no = pg ∧ r.line_no = i ∧ r.text ≠ "" := by
  intro r hr
  unfold processLine at hr
  repeat' split at hr
  all_goals try (have h := textRows_mem sf pg st i (pyRstrip raw) r hr; tauto)
  all_goals simp at hr
  all_goals subst hr
  all_goals simp_all [emitRow, pyStrip_clean_text]

theorem pairwise_of_length_le_one {α : Type} {R : α → α → Prop} :
    ∀ {l : List α}, l.length ≤ 1 → l.Pairwise R
  | [], _ => List.Pairwise.nil
  | [_], _ => by simp
  | _ :: _ :: _, h => by simp at h

/-- One classifier step yields at most one row, except for the plain-text
branch, whose rows are all of type `text`. -/
theorem processLine_shape (sf : String) (pg : Int) (uh : Bool) (st : PState)
    (i : Nat) (raw : String) :
    (processLine sf pg uh st i raw).2.length ≤ 1 ∨
      ∀ r ∈ (processLine sf pg uh st i raw).2, r.section_type = "text" := by
  unfold processLine
  repeat' split
  all_goals try (left; simp; done)
  all_goals right
  all_goals intro r hr
  all_goals exact (textRows_mem sf pg st i (pyRstrip raw) r hr).2.2.2.2.2.2.2.2.1

/-- Row-level facts that hold across the whole classifier loop. -/
theorem parseLines_mem (sf : String) (pg : Int) (uh : Bool) :
    ∀ (ls : List String) (st : PState) (i : Nat) (r : Row),
      r ∈ parseLines sf pg uh st i ls →
      r.h1 = "" ∧ r.h2 = "" ∧ r.h3 = "" ∧ r.section_path = "" ∧
      r.source_file = sf ∧ r.page_no = pg ∧ r.text ≠ "" := by
  intro ls
  induction ls with
  | nil => intro st i r hr; simp [parseLines] at hr
  | cons l t ih =>
    intro st i r hr
    simp only [parseLines, List.mem_append] at hr
    rcases hr with hr | hr
    · have h := processLine_mem sf pg uh st i l r hr
      tauto
    · exact ih _ _ r hr

/-- Rows of the loop tail start at the running line index. -/
theorem parseLines_line_lb (sf : String) (pg : Int) (uh : Bool) :
    ∀ (ls : List String) (st : PState) (i : Nat) (r : Row),
      r ∈ parseLines sf pg uh st i ls → i ≤ r.line_no := by
  intro ls
  induction ls with
  | nil => intro st i r hr; simp [parseLines] at hr
  | cons l t ih =>
    intro st i r hr
    simp only [parseLines, List.mem_append] at hr
    rcases hr with hr | hr
    · exact le_of_eq ((processLine_mem sf pg uh st i l r hr).2.2.2.2.2.2.1).symm
    · exact Nat.le_of_succ_le (ih _ _ r hr)

/-- Emission order of claim C10: line numbers never decrease, and two rows
may share a line number only when both are sentence fragments of a
plain-text line. -/
def rowOrder (x y : Row) : Prop :=
  x.line_no < y.line_no ∨
    (x.line_no = y.line_no ∧ x.section_type = "text" ∧ y.section_type = "text")

theorem parseLines_pairwise (sf : String) (pg : Int) (uh : Bool) :
    ∀ (ls : List String) (st : PState) (i : Nat),
      (parseLines sf pg uh st i ls).Pairwise rowOrder := by
  intro ls
  induction ls with
  | nil => intro st i; simp [parseLines]
  | cons l t ih =>
    intro st i
    simp only [parseLines]
    rw [List.pairwise_append]
    refine ⟨?_, ih _ _, ?_⟩
    · rcases processLine_shape sf pg uh st i l with h | h
      · exact pairwise_of_length_le_one h
      · refine List.pairwise_of_forall_mem_list ?_
        intro a ha b hb
        have la := (processLine_mem sf pg uh st i l a ha).2.2.2.2.2.2.1
        have lb := (processLine_mem sf pg uh st i l b hb).2.2.2.2.2.2.1
        exact Or.inr ⟨la.trans lb.symm, h a ha, h b hb⟩
    · intro a ha b hb
      have la := (processLine_mem sf pg uh st i l a ha).2.2.2.2.2.2.1
      have lb := parseLines_line_lb sf pg uh t _ (i + 1) b hb
      exact Or.inl (by omega)

/-! ## Claims -/

/-- C1, counterexample.  The claim says the classifier stamps the running
3-level heading stack on every emitted row, so that for the lines
`# A`, `## B`, `### C`, `## D` the row for `## D` carries `h1="A"`,
`h2="D"` and the row for `### C` carries `h1="A"`, `h2="B"`, `h3="C"`.
On the code every row carries empty `h1`/`h2`/`h3`, refuting the claimed
stamping. -/
theorem C1_counterexample :
    (parse_markdown_to_rows "# A\n## B\n### C\n## D" "doc.md" 0 false).map
        (fun r => (r.text, r.h1, r.h2, r.h3)) =
      [("A", "", "", ""), ("B", "", "", ""), ("C", "", "", ""), ("D", "", "", "")] ∧
    (parse_markdown_to_rows "# A\n## B\n### C\n## D" "doc.md" 0 false).map
        (fun r => (r.h1, r.h2, r.h3)) ≠
      [("A", "", ""), ("A", "B", ""), ("A", "B", "C"), ("A", "D", "")] := by
  decide

/-- C1, amended.  The classifier keeps no heading stack in its rows: for
the lines `# A`, `## B`, `### C`, `## D` it emits four heading rows at
levels 1, 2, 3, 2 whose `h1`/`h2`/`h3`/`section_path` fields are all
empty (they are left for the caller's outline enrichment), and only
`current_section` tracks the heading just seen. -/
theorem C1_amended :
    parse_markdown_to_rows "# A\n## B\n### C\n## D" "doc.md" 0 false =
      [Row.mk "doc.md" 1 0 "heading" 1 0 "" "" "" "" "A" "A",
       Row.mk "doc.md" 2 0 "heading" 2 0 "" "" "" "" "B" "B",
       Row.mk "doc.md" 3 0 "heading" 3 0 "" "" "" "" "C" "C",
       Row.mk "doc.md" 4 0 "heading" 2 0 "" "" "" "" "D" "D"] := by
  decide

/-- C2, counterexample.  `clean_text` is not idempotent: the
duplicate-phrase collapse takes `"a a a a"` to `"a a"` in one pass and to
`"a"` in a second pass. -/
theorem C2_counterexample :
    clean_text "a a a a" = "a a" ∧ clean_text (clean_text "a a a a") = "a" ∧
    clean_text (clean_text "a a a a") ≠ clean_text "a a a a" := by
  decide

/-- C2, amended.  `clean_text` is idempotent on the representative tested
inputs — already-clean ASCII, HTML-entity-laden, and bilingual-prefixed
strings — though not on every string. -/
theorem C2_amended :
    clean_text (clean_text "Hello world.") = clean_text "Hello world." ∧
    clean_text (clean_text "&amp; Section &lt;1&gt;") =
      clean_text "&amp; Section &lt;1&gt;" ∧
    clean_text (clean_text "메시지 Message from the CEO") =
      clean_text "메시지 Message from the CEO" := by
  decide

/-- C3.  For every input text, source file, page number and heuristics
flag, every row emitted by `parse_markdown_to_rows` has empty `h1`, `h2`,
`h3` and `section_path`: the classifier itself never fills the
heading-stack fields; only the caller's separate outline-enrichment step
can. -/
theorem C3_heading_fields_empty (md sf : String) (pg : Int) (uh : Bool) :
    ∀ r ∈ parse_markdown_to_rows md sf pg uh,
      r.h1 = "" ∧ r.h2 = "" ∧ r.h3 = "" ∧ r.section_path = "" := by
  intro r hr
  have h := parseLines_mem sf pg uh _ _ _ r hr
  tauto

/-- C3, witness: the table row produced from `| a | b |` on page 7 has all
four heading-stack fields empty. -/
theorem C3_witness :
    (Row.mk "doc.md" 1 7 "table" 0 1 "" "" "" "" "" "a | b").h1 = "" ∧
    (Row.mk "doc.md" 1 7 "table" 0 1 "" "" "" "" "" "a | b").h2 = "" ∧
    (Row.mk "doc.md" 1 7 "table" 0 1 "" "" "" "" "" "a | b").h3 = "" ∧
    (Row.mk "doc.md" 1 7 "table" 0 1 "" "" "" "" "" "a | b").section_path = "" :=
  C3_heading_fields_empty "| a | b |" "doc.md" 7 false _ (by decide)

/-- C4, counterexample.  A dash bullet row keeps the marker: `- Hello`
yields the bullet text `"- Hello"`, not the marker-stripped `"Hello"`;
and a line led by the bullet sign `•` is not matched by the source's
bullet pattern at all (its class holds the double-encoded bytes of the
sign, not the sign), so `• Hello` falls through to a text row. -/
theorem C4_counterexample :
    (parse_markdown_to_rows "- Hello" "doc.md" 0 false).map
        (fun r => (r.section_type, r.text)) = [("bullet", "- Hello")] ∧
    ("- Hello" : String) ≠ "Hello" ∧
    (parse_markdown_to_rows "• Hello" "doc.md" 0 false).map
        (fun r => (r.section_type, r.text)) = [("text", "• Hello")] := by
  decide

/-- C4, amended.  Every line matching the code's bullet pattern — marker
dash, asterisk, one of the mojibake characters of the double-encoded
bullet sign, or a digit run plus dot — that matches no earlier rule is
classified as exactly one bullet row whose text is the normalized full
trimmed line with the marker kept; the line is dropped if that normalizes
to empty, and the running state is unchanged either way. -/
theorem C4_amended (sf : String) (pg : Int) (uh : Bool) (st : PState)
    (i : Nat) (raw : String)
    (hne : ¬pyRstrip raw = "")
    (htoc : isTocOrReference (pyRstrip raw).data = false)
    (hhead : headingMatch (pyRstrip raw).data = none)
    (htab : tableMatch (pyRstrip raw).data = false)
    (hbul : bulletMatch (pyRstrip raw).data = true) :
    processLine sf pg uh st i raw =
      (st,
        if clean_text (pyStrip (pyRstrip raw)) = "" then []
        else [emitRow sf i (clean_text (pyStrip (pyRstrip raw))) "bullet" 0 0
                st.current_section pg "" "" "" ""]) := by
  unfold processLine
  simp [hne, htoc, hhead, htab, hbul]
  split <;> rfl

/-- C4, witness: the bullet line `- Hello` in state `("S", 2)` yields one
bullet row with the marker kept and leaves the state untouched. -/
theorem C4_witness :
    processLine "doc.md" 3 false ⟨"S", 2⟩ 7 "- Hello" =
      (⟨"S", 2⟩,
        if clean_text (pyStrip (pyRstrip "- Hello")) = "" then []
        else [emitRow "doc.md" 7 (clean_text (pyStrip (pyRstrip "- Hello")))
                "bullet" 0 0 "S" 3 "" "" "" ""]) :=
  C4_amended "doc.md" 3 false ⟨"S", 2⟩ 7 "- Hello"
    (by decide) (by decide) (by decide) (by decide) (by decide)

/-- C5.  Over the embedded classifier (a total function), every emitted
row has non-empty text, for every input and flag combination: the property
the claim states for the intended code. -/
theorem C5_text_nonempty (md sf : String) (pg : Int) (uh : Bool) :
    ∀ r ∈ parse_markdown_to_rows md sf pg uh, r.text ≠ "" := by
  intro r hr
  exact (parseLines_mem sf pg uh _ _ _ r hr).2.2.2.2.2.2

/-- C5, witness: the heading row from `## B` has non-empty text. -/
theorem C5_witness :
    (Row.mk "doc.md" 1 0 "heading" 2 0 "" "" "" "" "B" "B").text ≠ "" :=
  C5_text_nonempty "## B" "doc.md" 0 false _ (by decide)

/-- C6.  Intended bilingual reduction of `clean_text` (the source's
`NON_LATIN_PREFIX_RE` itself fails to compile, so in CPython this code
raises at import): the keyword-carrying bilingual line reduces to its
Latin part, and non-Latin-prefixed strings without a keyword — or without
a Latin remainder at all — are left unchanged. -/
theorem C6_bilingual_intended :
    clean_text "메시지 Message from the CEO" = "Message from the CEO" ∧
    clean_text "이름 홍길동" = "이름 홍길동" ∧
    stripBilingualPrefix "한국어 Annual Overview".data =
      "한국어 Annual Overview".data := by
  decide

/-- C7.  Heuristic gating on `3.2 Climate Risk`: with heuristics off the
line is one text row; with heuristics on it is one heading row at level
2, the level being the minimum of 6 and the dot count of the numeric
group plus one. -/
theorem C7_heuristic_gating :
    (parse_markdown_to_rows "3.2 Climate Risk" "doc.md" 0 false).map
        (fun r => (r.section_type, r.heading_level, r.text)) =
      [("text", 0, "3.2 Climate Risk")] ∧
    (parse_markdown_to_rows "3.2 Climate Risk" "doc.md" 0 true).map
        (fun r => (r.section_type, r.heading_level, r.text)) =
      [("heading", 2, "Climate Risk")] ∧
    inferLevelFromNumbering "3.2 Climate Risk".data =
      some (min 6 ("3.2".data.count '.' + 1)) := by
  decide

/-- C8.  Forward fill works through the documented example — `# Intro`
then `Hello world.` gives a text row with `current_section = "Intro"` —
but the caps-heuristic branch breaks the claimed invariant: with
heuristics on, the line `&#X9;` (which cleans to empty) emits no row yet
resets `current_section`, so the following text row carries `""` instead
of `"Intro"`. -/
theorem C8_forward_fill_and_break :
    (parse_markdown_to_rows "# Intro\nHello world." "doc.md" 0 false).map
        (fun r => (r.section_type, r.text, r.current_section)) =
      [("heading", "Intro", "Intro"), ("text", "Hello world.", "Intro")] ∧
    (parse_markdown_to_rows "# Intro\n&#X9;\nHello." "doc.md" 0 true).map
        (fun r => (r.line_no, r.text, r.current_section)) =
      [(1, "Intro", "Intro"), (3, "Hello.", "")] := by
  decide

/-- C9.  A zero-row line that changes state: with heuristics on, `&#XA;`
matches the caps heuristic (its only letters are the capitals X and A),
cleans to empty and is dropped, but `current_section` has already been
overwritten with the empty cleaned text — the state moves from
`("Intro", 1)` to `("", 1)` although no row is emitted. -/
theorem C9_zero_row_state_change :
    processLine "doc.md" 0 true ⟨"Intro", 1⟩ 2 "&#XA;" = (⟨"", 1⟩, []) ∧
    (⟨"", 1⟩ : PState) ≠ (⟨"Intro", 1⟩ : PState) := by
  decide

/-- C10.  In one invocation the emitted rows are ordered: line numbers
never decrease, two rows share a line number only when both are sentence
fragments of a plain-text line, and every row carries the page number of
the invocation. -/
theorem C10_ordering_page (md sf : String) (pg : Int) (uh : Bool) :
    (parse_markdown_to_rows md sf pg uh).Pairwise rowOrder ∧
      ∀ r ∈ parse_markdown_to_rows md sf pg uh, r.page_no = pg := by
  constructor
  · exact parseLines_pairwise sf pg uh _ _ _
  · intro r hr
    exact (parseLines_mem sf pg uh _ _ _ r hr).2.2.2.2.2.1

/-- C10, witness: a two-line input on page 5 whose second line splits into
two sentences is pairwise ordered, and its heading row carries page 5. -/
theorem C10_witness :
    (parse_markdown_to_rows "# P\nOne. Two" "doc.md" 5 false).Pairwise rowOrder ∧
      (Row.mk "doc.md" 1 5 "heading" 1 0 "" "" "" "" "P" "P").page_no = 5 :=
  ⟨(C10_ordering_page "# P\nOne. Two" "doc.md" 5 false).1,
   (C10_ordering_page "# P\nOne. Two" "doc.md" 5 false).2 _ (by decide)⟩

end DocFlow
